import Mathlib

/-!
Shallow embedding of the workflow graph execution engine of `poc-ai`
(`src/core/workflow-engine.js`, re-exported through `src/routes/test-chat.js`)
together with the caller-side response extraction of the test-chat route.

JavaScript values that may be `undefined` are modelled as `Option`; JS
truthiness of strings (`''` is falsy), numbers (`0` is falsy) and booleans
is modelled by explicit helper functions.  Confidences and relevance scores
are modelled as rationals (`Rat`): every comparison the source performs is
an order comparison between exactly-representable decimal literals, for
which rational arithmetic agrees with IEEE doubles.
-/

namespace PocAI

/-- Truthiness of an optional JS string: `undefined` and `''` are falsy. -/
def strTruthy : Option String → Bool
  | none => false
  | some s => s ≠ ""

/-- JS `a || b` for two optional strings. -/
def jsOr (a b : Option String) : Option String :=
  if strTruthy a then a else b

/-- JS `a || d` where `d` is a string literal default. -/
def jsOrD (a : Option String) (d : String) : String :=
  match a with
  | some s => if s = "" then d else s
  | none => d

/-- JS `a || d` for an optional number with numeric default (`0` is falsy). -/
def jsOrRat (a : Option Rat) (d : Rat) : Rat :=
  match a with
  | some x => if x = 0 then d else x
  | none => d

/-- JS `a || d` for an optional natural number (`0` is falsy). -/
def jsOrNat (a : Option Nat) (d : Nat) : Nat :=
  match a with
  | some n => if n = 0 then d else n
  | none => d

/-- A product row as used by the engine: identity, display fields, the
stored popularity used for fallback ordering, and the ranking annotations
the ml handler attaches. -/
structure Product where
  id : Nat
  name : String := ""
  brand : String := ""
  model : String := ""
  popularity : Int := 0
  relevance_score : Option Rat := none
  reasoning : Option String := none
deriving Repr, DecidableEq

/-- One entry of the ranking adapter's JSON payload (`content.products[i]`). -/
structure RankedItem where
  id : Option Nat := none
  name : Option String := none
  relevance_score : Option Rat := none
  reasoning : Option String := none
deriving Repr, DecidableEq

/-- Parsed payload of the ranking adapter (`ml` handler). -/
structure RankContent where
  products : Option (List RankedItem) := none
  overall_reasoning : Option String := none
  reasoning : Option String := none
  confidence : Option Rat := none
  tokensUsed : Nat := 0
deriving Repr, DecidableEq

/-- Parsed payload of the language-understanding adapter (`nlp` handler). -/
structure NlpContent where
  intent : Option String := none
  entities : Option (List (String × String)) := none
  confidence : Option Rat := none
  requires_product_search : Option Bool := none
  requires_agent_escalation : Option Bool := none
  tokensUsed : Nat := 0
deriving Repr, DecidableEq

/-- Result of the vision adapter (`ImageProcessor.processImage`). -/
structure VisionAnalysis where
  success : Bool := false
  error : Option String := none
  product_name : Option String := none
  category : Option String := none
  brand : Option String := none
  tokensUsed : Option Nat := none
deriving Repr, DecidableEq

/-- Result of `ProductRecommender.recommend`. -/
structure RecommendOutcome where
  products : List Product := []
  reasoning : Option String := none
  fallbackProducts : Option (List Product) := none
  confidence : Option Rat := none
  tokensUsed : Option Nat := none
deriving Repr, DecidableEq

/-- The `data` record of a Step Result, restricted to the fields the engine
and its handlers actually read or write.  All fields default to absent. -/
structure RData where
  message : Option String := none
  finalResponse : Option String := none
  optimized : Option String := none
  response : Option String := none
  formatted : Option String := none
  intent : Option String := none
  entities : Option (List (String × String)) := none
  confidence : Option Rat := none
  requires_product_search : Option Bool := none
  requires_agent_escalation : Option Bool := none
  products : Option (List Product) := none
  fallbackProducts : Option (List Product) := none
  reasoning : Option String := none
  language : Option String := none
  escalated : Option Bool := none
  analysis : Option VisionAnalysis := none
  product_name : Option String := none
  category : Option String := none
  brand : Option String := none
  messageType : Option String := none
  error : Option String := none
deriving Repr, DecidableEq

/-- The uniform Step Result returned by every node dispatch. -/
structure StepResult where
  data : Option RData := none
  next : Option String := none
  confidence : Option Rat := none
  found : Option Bool := none
  tokensUsed : Option Nat := none
  error : Option String := none
deriving Repr, DecidableEq

/-- The lightweight step trace pushed onto `workflowSteps` for every
dispatch that returned (source lines 300-310): node id, node name and a
summary of the result.  The full `data` payload is deliberately not stored. -/
structure StepTrace where
  node : String
  nodeName : String
  hasData : Bool
  hasError : Bool
  confidence : Option Rat
  found : Option Bool
  tokensUsed : Option Nat
deriving Repr, DecidableEq

/-- One entry of a classifier node's `config.classify` list. -/
structure ClassifyEntry where
  type : Option String := none
  next : Option String := none
deriving Repr, DecidableEq

/-- One entry of a router node's `config.routes` list. -/
structure RouteEntry where
  intent : Option String := none
  next : Option String := none
deriving Repr, DecidableEq

/-- The routing-relevant part of a node's `config` record. -/
structure NodeConfig where
  next : Option String := none
  next_high_confidence : Option String := none
  next_low_confidence : Option String := none
  next_found : Option String := none
  next_not_found : Option String := none
  fallback : Option String := none
  top_n : Option Nat := none
  classify : Option (List ClassifyEntry) := none
  routes : Option (List RouteEntry) := none
deriving Repr, DecidableEq

/-- A workflow node: id, display name, kind tag (`type`) and config. -/
structure Node where
  id : String
  name : String := ""
  type : String
  config : NodeConfig := {}
deriving Repr, DecidableEq

/-- The loaded node set.  The source stores nodes in a `Map` built by
iterating the node list, so a duplicated id is overwritten by the later
entry; `lookup` therefore finds the last node with the given id. -/
abbrev Graph := List Node

/-- `this.nodes.get(i)` on the id-indexed node map. -/
def lookup (g : Graph) (i : String) : Option Node :=
  g.reverse.find? (fun n => n.id == i)

/-- Resolve one named next-node reference the way each priority of
`getNextNode` does: a falsy reference (absent or empty string) or a
reference whose id is not in the graph yields nothing and the priority
chain continues. -/
def refTarget (g : Graph) (r : Option String) : Option Node :=
  match r with
  | none => none
  | some s => if s = "" then none else lookup g s

/-- JS `confidence >= t` where `confidence` may be `undefined`
(`undefined >= t` is false). -/
def confGE (c : Option Rat) (t : Rat) : Bool :=
  match c with
  | none => false
  | some x => t ≤ x

/-- JS `confidence < t` where `confidence` may be `undefined`
(`undefined < t` is false). -/
def confLT (c : Option Rat) (t : Rat) : Bool :=
  match c with
  | none => false
  | some x => x < t

/-- Truthiness of the optional `found` flag (`undefined` and `false` are
falsy). -/
def foundTruthy : Option Bool → Bool
  | some true => true
  | _ => false

namespace WorkflowEngine

/-- The Next-Node Resolver (`WorkflowEngine.getNextNode`, source lines
443-499): a strict priority chain, each priority short-circuiting when its
guard holds and its reference resolves to a real node, and defaulting to
the node registered under the id `end`. -/
def getNextNode (g : Graph) (node : Node) (result : StepResult) : Option Node :=
  (refTarget g result.next) <|>
  (refTarget g node.config.next) <|>
  (if confGE result.confidence (7/10) then refTarget g node.config.next_high_confidence else none) <|>
  (if confLT result.confidence (7/10) then refTarget g node.config.next_low_confidence else none) <|>
  (if foundTruthy result.found then refTarget g node.config.next_found else none) <|>
  (if !foundTruthy result.found then refTarget g node.config.next_not_found else none) <|>
  (refTarget g node.config.fallback) <|>
  lookup g "end"

end WorkflowEngine

/-- The caller-supplied part of the run context that handlers may read and
(for the classifier and speech handlers) mutate in place: the live input
message, the inbound metadata fields the handlers consult, and the
language/transcription state.  `media_url` stands for the
`metadata.media_url || metadata.image_url` chain. -/
structure UserCtx where
  user_message : Option String := none
  metadata_message_type : Option String := none
  media_url : Option String := none
  language : Option String := none
  messageType : Option String := none
  transcribed : Bool := false
deriving Repr, DecidableEq

/-- The Execution Context built fresh by `execute` and threaded through the
run (source lines 255-267).  `dispatchCount` is ghost instrumentation that
counts calls of `executeNode`; it is written together with each dispatch
and read by nothing, so it does not influence behaviour. -/
structure ExecCtx where
  user : UserCtx := {}
  tokensUsed : Nat := 0
  workflowSteps : List StepTrace := []
  errors : List String := []
  allResults : List StepResult := []
  finalResponse : Option String := none
  visitedNodes : List String := []
  maxIterations : Nat := 100
  iterationCount : Nat := 0
  lastResult : Option StepResult := none
  dispatchCount : Nat := 0
deriving Repr, DecidableEq

/-- Outcome of one node dispatch: either the handler threw, or it returned
a Step Result.  Both carry the (possibly mutated) caller-facing context
fields, since the classifier and speech handlers mutate them in place. -/
inductive DOutcome where
  | thrown (msg : String) (user : UserCtx)
  | ok (r : StepResult) (user : UserCtx)
deriving Repr, DecidableEq

/-- A dispatch behaviour: what `executeNode` does on each node, including
whatever the capability adapters return on that call.  The run-level
theorems quantify over every oracle and therefore cover every adapter
behaviour; `executeNodeO` below is the concrete dispatcher. -/
abbrev Oracle := Node → ExecCtx → DOutcome

namespace WorkflowEngine

/-- Handler of `trigger` nodes: pure projection of the inbound message
(the `metadata` passthrough field of its payload is not read downstream
and is not modelled). -/
def handleTrigger (ctx : ExecCtx) : StepResult :=
  { data := some { message := ctx.user.user_message }, tokensUsed := some 0 }

/-- Handler of `nlp` nodes (source lines 534-612), with the
language-understanding call abstracted into `nlpOutcome` (the node's
model/prompt config only parameterises that call).  Missing input message
and adapter failure both return the degraded result with
`intent = general_question`, `confidence = 0.3` and `error` set. -/
def handleNLP (nlpOutcome : Except String NlpContent) (node : Node) (ctx : ExecCtx) : StepResult :=
  let message := jsOr ctx.user.user_message ((ctx.lastResult.bind (·.data)).bind (·.message))
  if !strTruthy message then
    { data := some { intent := some "general_question", entities := some [],
                     confidence := some (3/10), requires_product_search := some false,
                     requires_agent_escalation := some false },
      tokensUsed := some 0, confidence := some (3/10), error := some "No message to process" }
  else
    match nlpOutcome with
    | .ok content =>
      { data := some { intent := content.intent, entities := some (content.entities.getD []),
                       confidence := some (jsOrRat content.confidence (1/2)),
                       requires_product_search := some (content.requires_product_search.getD false),
                       requires_agent_escalation := some (content.requires_agent_escalation.getD false) },
        tokensUsed := some content.tokensUsed, confidence := some (jsOrRat content.confidence (1/2)) }
    | .error msg =>
      { data := some { intent := some "general_question", entities := some [],
                       confidence := some (3/10), requires_product_search := some false,
                       requires_agent_escalation := some false },
        tokensUsed := some 0, confidence := some (3/10), error := some msg }

/-- Handler of `router` nodes (source lines 614-627): matches the last
result's intent against the static route table and falls back to
`config.fallback` (the `route` passthrough field of its payload is not
read downstream and is not modelled). -/
def handleRouter (routes : List RouteEntry) (node : Node) (ctx : ExecCtx) : StepResult :=
  let intent := (ctx.lastResult.bind (·.data)).bind (·.intent)
  let route := routes.find? (fun r => r.intent == intent)
  { data := some { intent := intent }, tokensUsed := some 0,
    next := jsOr (route.bind (·.next)) node.config.fallback }

/-- Handler of `escalation` nodes (source lines 1024-1054): localized
agent-transfer template (the object/language fallback of the template
store is folded into the `templates` function) and an explicit `next`
override, defaulting to `response_sender`. -/
def handleEscalation (templates : String → String → String) (node : Node) (ctx : ExecCtx) : StepResult :=
  let language := jsOrD (jsOr ctx.user.language ((ctx.lastResult.bind (·.data)).bind (·.language))) "english"
  let response := jsOrD (some (templates "agent_transfer" language)) "I\x27m connecting you with a human agent..."
  { data := some { escalated := some true, response := some response,
                   formatted := some response, finalResponse := some response },
    tokensUsed := some 0, next := some (jsOrD node.config.next "response_sender") }

/-- The response-field chain the action handler reads
(`optimized || response || formatted || finalResponse`). -/
def respChainA (d : RData) : Option String :=
  jsOr (jsOr (jsOr d.optimized d.response) d.formatted) d.finalResponse

/-- The response-field chain the caller-side extractor reads
(`finalResponse || optimized || response || formatted`). -/
def respChainX (d : RData) : Option String :=
  jsOr (jsOr (jsOr d.finalResponse d.optimized) d.response) d.formatted

/-- Backward scan of a (pre-reversed) result list for the first truthy
response under the given field chain. -/
def scanResponses (chain : RData → Option String) : List StepResult → Option String
  | [] => none
  | r :: rest =>
    match r.data with
    | some d => if strTruthy (chain d) then chain d else scanResponses chain rest
    | none => scanResponses chain rest

/-- Handler of `action` nodes (source lines 1056-1141), the terminal
content selection.  Priority 1 reads the last result; priority 2 of the
source walks `workflowSteps` reading `step.result.data`, but the traces
store only summary flags, so that walk never yields anything and is not
modelled; priority 3 scans `allResults` backward; priority 4 falls back to
an intent/language template and finally to a literal apology. -/
def handleAction (templates : String → String → String) (node : Node) (ctx : ExecCtx) : StepResult :=
  let lastData := ctx.lastResult.bind (·.data)
  let s1 : Option String := lastData.bind respChainA
  let s2 : Option String :=
    if strTruthy s1 then s1 else scanResponses respChainA ctx.allResults.reverse
  let intent := jsOrD (lastData.bind (·.intent)) "greeting"
  let language := jsOrD (jsOr ctx.user.language (lastData.bind (·.language))) "english"
  let templateKey := if intent = "greeting" then "greeting" else intent ++ "_response"
  let t1 := templates templateKey language
  let t2 := if t1 = "" then templates "greeting" language else t1
  let response :=
    if strTruthy s2 then s2.getD ""
    else jsOrD (some t2) "I apologize, I couldn\x27t process that request. Please try rephrasing your question."
  { data := some { finalResponse := some response }, tokensUsed := some 0 }

/-- Handler of `vision` nodes (source lines 1143-1182): missing media URL
is a handler-level error with no adapter call; an unsuccessful analysis or
adapter throw yields an error result carrying the adapter's token count
(`0` on a throw). -/
def handleVision (vision : Except String VisionAnalysis) (ctx : ExecCtx) : StepResult :=
  match ctx.user.media_url with
  | none =>
    { data := some { error := some "No image URL provided" },
      tokensUsed := some 0, error := some "Missing image URL" }
  | some _ =>
    match vision with
    | .error msg =>
      { data := some { error := some msg }, tokensUsed := some 0, error := some msg }
    | .ok analysis =>
      if !analysis.success then
        { data := some { error := analysis.error },
          tokensUsed := some (analysis.tokensUsed.getD 0), error := analysis.error }
      else
        { data := some { analysis := some analysis, product_name := analysis.product_name,
                         category := analysis.category, brand := analysis.brand },
          tokensUsed := some (analysis.tokensUsed.getD 0) }

/-- Match one ranking-payload entry back to a candidate product
(`p.id === ranked.id || p.name === ranked.name || brand+model === ranked.name`)
and attach the score and reasoning, defaulting falsy scores to `0.5`. -/
def rankedMatch (products : List Product) (rk : RankedItem) : Option Product :=
  match products.find? (fun p =>
      (match rk.id with | some i => p.id == i | none => false) ||
      (match rk.name with | some s => p.name == s | none => false) ||
      (match rk.name with | some s => (p.brand ++ " " ++ p.model).trim == s | none => false)) with
  | none => none
  | some p =>
    some { p with relevance_score := some (jsOrRat rk.relevance_score (1/2)),
                  reasoning := some (jsOrD rk.reasoning "Relevant product") }

/-- Handler of `ml` nodes (source lines 803-915): the smart-recommendation
branch for `product_recommender`, the AI-ranking branch for
`bike_ranker`/`product_ranker` with its popularity-order fallback on
adapter failure, and the default empty result. -/
def handleML (ranker : Except String RankContent) (recommend : RecommendOutcome)
    (node : Node) (ctx : ExecCtx) : StepResult :=
  let lastData := ctx.lastResult.bind (·.data)
  let products := (lastData.bind (·.products)).getD []
  if node.id = "product_recommender" then
    { data := some { products := some recommend.products, reasoning := recommend.reasoning,
                     fallbackProducts := recommend.fallbackProducts },
      tokensUsed := some (jsOrNat recommend.tokensUsed 0), confidence := recommend.confidence }
  else if node.id = "bike_ranker" || node.id = "product_ranker" then
    if products.length = 0 then
      { data := some { products := some [], reasoning := some "No products found" },
        tokensUsed := some 0, confidence := some 0 }
    else
      match ranker with
      | .ok content =>
        let ranked := (content.products.getD []).filterMap (rankedMatch products)
        let sorted := ranked.mergeSort
          (fun a b => decide ((b.relevance_score.getD 0) ≤ (a.relevance_score.getD 0)))
        let final := sorted.take (jsOrNat node.config.top_n 5)
        { data := some { products := some final,
                         reasoning := jsOr content.overall_reasoning content.reasoning },
          tokensUsed := some content.tokensUsed,
          confidence := some (jsOrRat content.confidence (7/10)) }
      | .error _ =>
        { data := some { products := some (products.take (jsOrNat node.config.top_n 5)),
                         reasoning := some "Fallback ranking by popularity" },
          tokensUsed := some 0, confidence := some (1/2) }
  else
    { data := some { products := some [], reasoning := some "No results" },
      tokensUsed := some 0, confidence := some 0 }

end WorkflowEngine

/-- Concrete capability-adapter behaviours for one run: what each external
call returns (or that it throws), the template store, and an opaque
dispatch behaviour for the node kinds whose handlers only touch the data
store or pure formatting and are not needed by any claim
(`database`, `formatter`, `optimizer`, `handler`, `speech`). -/
structure Adapters where
  nlp : Except String NlpContent := .error "adapter unavailable"
  ranker : Except String RankContent := .error "adapter unavailable"
  vision : Except String VisionAnalysis := .error "adapter unavailable"
  recommend : RecommendOutcome := {}
  templates : String → String → String := fun _ _ => ""
  other : Node → ExecCtx → DOutcome := fun _ ctx => .ok { tokensUsed := some 0 } ctx.user

namespace WorkflowEngine

/-- Handler of `classifier` nodes (source lines 516-532): selects a branch
by message type and mutates `context.messageType`.  A classifier node
without a `classify` list makes the source throw
(`undefined.find`), which the run driver's catch block handles. -/
def classifierOutcome (node : Node) (ctx : ExecCtx) : DOutcome :=
  match node.config.classify with
  | none => .thrown "Cannot read properties of undefined" ctx.user
  | some cs =>
    let messageType := jsOrD ctx.user.metadata_message_type "text"
    let route := cs.find? (fun r => r.type == some messageType)
    .ok { data := some { messageType := some messageType },
          tokensUsed := some 0, next := route.bind (·.next) }
        { ctx.user with messageType := some messageType }

/-- The Node Dispatcher (`WorkflowEngine.executeNode`, source lines
392-438): maps the node kind to its handler.  A router node without a
`routes` list throws like a classifier without `classify`.  Unknown kinds
return the no-op result `{data: lastResult.data, tokensUsed: 0}`. -/
def executeNodeO (a : Adapters) : Oracle := fun node ctx =>
  match node.type with
  | "trigger" => .ok (handleTrigger ctx) ctx.user
  | "classifier" => classifierOutcome node ctx
  | "nlp" => .ok (handleNLP a.nlp node ctx) ctx.user
  | "router" =>
    match node.config.routes with
    | none => .thrown "Cannot read properties of undefined" ctx.user
    | some rs => .ok (handleRouter rs node ctx) ctx.user
  | "ml" => .ok (handleML a.ranker a.recommend node ctx) ctx.user
  | "escalation" => .ok (handleEscalation a.templates node ctx) ctx.user
  | "action" => .ok (handleAction a.templates node ctx) ctx.user
  | "vision" => .ok (handleVision a.vision ctx) ctx.user
  | "database" => a.other node ctx
  | "formatter" => a.other node ctx
  | "optimizer" => a.other node ctx
  | "handler" => a.other node ctx
  | "speech" => a.other node ctx
  | _ => .ok { data := ctx.lastResult.bind (·.data), tokensUsed := some 0 } ctx.user

/-- The step trace pushed for each returned dispatch (source lines
300-310). -/
def mkTrace (node : Node) (r : StepResult) : StepTrace :=
  { node := node.id, nodeName := node.name, hasData := r.data.isSome,
    hasError := strTruthy r.error, confidence := r.confidence,
    found := r.found, tokensUsed := r.tokensUsed }

/-- Where the run driver routes after a fault (an error result or a throw,
source lines 317-324 and 364-371): the escalation node unless
`agent_escalation` is in `visitedNodes`, otherwise the terminal response
node. -/
def faultTarget (g : Graph) (ctx : ExecCtx) : Option Node :=
  if ctx.visitedNodes.contains "agent_escalation" then lookup g "response_sender"
  else lookup g "agent_escalation"

/-- The `finalResponse` tracking of the run driver (source lines 332-337):
the first truthy of `finalResponse`, `optimized`, `response` in the
result's payload, if any. -/
def dataResponse (r : StepResult) : Option String :=
  match r.data with
  | none => none
  | some d =>
    if strTruthy d.finalResponse then d.finalResponse
    else if strTruthy d.optimized then d.optimized
    else if strTruthy d.response then d.response
    else none

/-- The loop's `executionContext.iterationCount++`. -/
def bumpIter (ctx : ExecCtx) : ExecCtx :=
  { ctx with iterationCount := ctx.iterationCount + 1 }

/-- The loop's `executionContext.errors.push(msg)`. -/
def pushErr (ctx : ExecCtx) (msg : String) : ExecCtx :=
  { ctx with errors := ctx.errors ++ [msg] }

/-- Context bookkeeping of one call of `executeNode`: the handler's
in-place mutation of the caller-facing fields, plus the ghost dispatch
counter. -/
def noteDispatch (ctx : ExecCtx) (u : UserCtx) : ExecCtx :=
  { ctx with user := u, dispatchCount := ctx.dispatchCount + 1 }

/-- The loop's `executionContext.workflowSteps.push(trace)`. -/
def pushTrace (ctx : ExecCtx) (t : StepTrace) : ExecCtx :=
  { ctx with workflowSteps := ctx.workflowSteps ++ [t] }

/-- The success-path bookkeeping of the loop (source lines 328-337):
token accumulation, `lastResult`, the `allResults` push and the
`finalResponse` tracking. -/
def recordResult (ctx : ExecCtx) (r : StepResult) : ExecCtx :=
  let c : ExecCtx :=
    { ctx with
      tokensUsed := ctx.tokensUsed + jsOrNat r.tokensUsed 0,
      lastResult := some r,
      allResults := ctx.allResults ++ [r] }
  match dataResponse r with
  | some resp => { c with finalResponse := some resp }
  | none => c

/-- Result of one iteration of the run driver's loop: the loop either
terminates with a final context, or continues at a next node. -/
inductive StepOut where
  | halt (ctx : ExecCtx)
  | next (cur : Option Node) (ctx : ExecCtx)
deriving Repr

/-- One iteration of the run driver's `while` loop (source lines 271-373):
terminal/absent node check, iteration-ceiling guard, repeated-visit guard
(both guards record an error and break; the repeated-visit guard's
reassignment of the loop's local node variable is unobservable because it
breaks immediately), then dispatch with the error and throw routing and
the context bookkeeping of the success path. -/
def loopStep (g : Graph) (o : Oracle) (cur : Option Node) (ctx : ExecCtx) : StepOut :=
  match cur with
  | none => .halt ctx
  | some node =>
    if node.type = "end" then .halt ctx
    else
      let c1 : ExecCtx := bumpIter ctx
      if c1.maxIterations < c1.iterationCount then
        .halt (pushErr c1
          ("Workflow loop detected after " ++ toString c1.iterationCount ++ " iterations"))
      else if 3 < (c1.workflowSteps.filter (fun s => s.node == node.id)).length then
        .halt (pushErr c1 ("Infinite loop detected at node " ++ node.id))
      else
        match o node c1 with
        | .thrown msg u =>
          let c2 : ExecCtx := pushErr (noteDispatch c1 u)
            ("Fatal error in " ++ node.id ++ ": " ++ msg)
          .next (faultTarget g c2) c2
        | .ok r u =>
          let c2 : ExecCtx := pushTrace (noteDispatch c1 u) (mkTrace node r)
          if strTruthy r.error then
            let c3 : ExecCtx := pushErr c2
              ("Error in node " ++ node.id ++ " (" ++ node.name ++ "): " ++ r.error.getD "")
            .next (faultTarget g c3) c3
          else
            .next (getNextNode g node r) (recordResult c2 r)

/-- The run driver's loop, with explicit fuel.  Every iteration increments
`iterationCount` and the loop breaks once the count exceeds
`maxIterations`, so `maxIterations + 1 - iterationCount` fuel is exact;
`runLoop_fuel_irrelevant` below shows the fuel never truncates a run. -/
def runLoop (g : Graph) (o : Oracle) : Nat → Option Node → ExecCtx → ExecCtx
  | 0, _, ctx => ctx
  | fuel + 1, cur, ctx =>
    match loopStep g o cur ctx with
    | .halt c => c
    | .next cur2 c => runLoop g o fuel cur2 c

/-- `WorkflowEngine.execute` (source lines 253-387): build the fresh
execution context and run the loop from the node registered as `start`.
The wall-clock `responseTime` bookkeeping is not modelled. -/
def execute (g : Graph) (o : Oracle) (user : UserCtx) : ExecCtx :=
  let ctx0 : ExecCtx := { user := user }
  runLoop g o (ctx0.maxIterations + 1) (lookup g "start") ctx0

end WorkflowEngine

/-- The caller-side Response Extractor of the test-chat route
(`src/routes/test-chat.js`, lines 72-123): the last result's
`finalResponse`, then a backward scan of `allResults` under the
`finalResponse || optimized || response || formatted` chain (priority 3 of
the source iterates `workflowSteps` but, as its own comment notes, the
traces carry no payload, so it sets nothing), then the last result's
remaining response fields, then an error-surfacing message from the first
recorded error, and finally a literal apology. -/
def extractResponse (result : ExecCtx) : String :=
  let lastData := result.lastResult.bind (·.data)
  let p1 := lastData.bind (·.finalResponse)
  if strTruthy p1 then p1.getD ""
  else
    match WorkflowEngine.scanResponses WorkflowEngine.respChainX result.allResults.reverse with
    | some r => r
    | none =>
      let p4 := jsOr (jsOr (lastData.bind (·.optimized)) (lastData.bind (·.response)))
        (lastData.bind (·.formatted))
      if strTruthy p4 then p4.getD ""
      else
        match result.errors with
        | e :: _ => "I encountered an error: " ++ e ++ ". Please try again or contact support."
        | [] => "I apologize, I couldn\x27t process that request. Please try rephrasing your question."

namespace WorkflowEngine

@[simp] theorem bumpIter_iterationCount (ctx : ExecCtx) :
    (bumpIter ctx).iterationCount = ctx.iterationCount + 1 := rfl
@[simp] theorem bumpIter_maxIterations (ctx : ExecCtx) :
    (bumpIter ctx).maxIterations = ctx.maxIterations := rfl
@[simp] theorem bumpIter_workflowSteps (ctx : ExecCtx) :
    (bumpIter ctx).workflowSteps = ctx.workflowSteps := rfl
@[simp] theorem bumpIter_allResults (ctx : ExecCtx) :
    (bumpIter ctx).allResults = ctx.allResults := rfl
@[simp] theorem bumpIter_errors (ctx : ExecCtx) :
    (bumpIter ctx).errors = ctx.errors := rfl
@[simp] theorem bumpIter_tokensUsed (ctx : ExecCtx) :
    (bumpIter ctx).tokensUsed = ctx.tokensUsed := rfl
@[simp] theorem bumpIter_dispatchCount (ctx : ExecCtx) :
    (bumpIter ctx).dispatchCount = ctx.dispatchCount := rfl
@[simp] theorem bumpIter_visitedNodes (ctx : ExecCtx) :
    (bumpIter ctx).visitedNodes = ctx.visitedNodes := rfl
@[simp] theorem bumpIter_lastResult (ctx : ExecCtx) :
    (bumpIter ctx).lastResult = ctx.lastResult := rfl
@[simp] theorem bumpIter_user (ctx : ExecCtx) :
    (bumpIter ctx).user = ctx.user := rfl

@[simp] theorem pushErr_iterationCount (ctx : ExecCtx) (m : String) :
    (pushErr ctx m).iterationCount = ctx.iterationCount := rfl
@[simp] theorem pushErr_maxIterations (ctx : ExecCtx) (m : String) :
    (pushErr ctx m).maxIterations = ctx.maxIterations := rfl
@[simp] theorem pushErr_workflowSteps (ctx : ExecCtx) (m : String) :
    (pushErr ctx m).workflowSteps = ctx.workflowSteps := rfl
@[simp] theorem pushErr_allResults (ctx : ExecCtx) (m : String) :
    (pushErr ctx m).allResults = ctx.allResults := rfl
@[simp] theorem pushErr_errors (ctx : ExecCtx) (m : String) :
    (pushErr ctx m).errors = ctx.errors ++ [m] := rfl
@[simp] theorem pushErr_tokensUsed (ctx : ExecCtx) (m : String) :
    (pushErr ctx m).tokensUsed = ctx.tokensUsed := rfl
@[simp] theorem pushErr_dispatchCount (ctx : ExecCtx) (m : String) :
    (pushErr ctx m).dispatchCount = ctx.dispatchCount := rfl
@[simp] theorem pushErr_visitedNodes (ctx : ExecCtx) (m : String) :
    (pushErr ctx m).visitedNodes = ctx.visitedNodes := rfl
@[simp] theorem pushErr_lastResult (ctx : ExecCtx) (m : String) :
    (pushErr ctx m).lastResult = ctx.lastResult := rfl

@[simp] theorem noteDispatch_iterationCount (ctx : ExecCtx) (u : UserCtx) :
    (noteDispatch ctx u).iterationCount = ctx.iterationCount := rfl
@[simp] theorem noteDispatch_maxIterations (ctx : ExecCtx) (u : UserCtx) :
    (noteDispatch ctx u).maxIterations = ctx.maxIterations := rfl
@[simp] theorem noteDispatch_workflowSteps (ctx : ExecCtx) (u : UserCtx) :
    (noteDispatch ctx u).workflowSteps = ctx.workflowSteps := rfl
@[simp] theorem noteDispatch_allResults (ctx : ExecCtx) (u : UserCtx) :
    (noteDispatch ctx u).allResults = ctx.allResults := rfl
@[simp] theorem noteDispatch_errors (ctx : ExecCtx) (u : UserCtx) :
    (noteDispatch ctx u).errors = ctx.errors := rfl
@[simp] theorem noteDispatch_tokensUsed (ctx : ExecCtx) (u : UserCtx) :
    (noteDispatch ctx u).tokensUsed = ctx.tokensUsed := rfl
@[simp] theorem noteDispatch_dispatchCount (ctx : ExecCtx) (u : UserCtx) :
    (noteDispatch ctx u).dispatchCount = ctx.dispatchCount + 1 := rfl
@[simp] theorem noteDispatch_visitedNodes (ctx : ExecCtx) (u : UserCtx) :
    (noteDispatch ctx u).visitedNodes = ctx.visitedNodes := rfl
@[simp] theorem noteDispatch_lastResult (ctx : ExecCtx) (u : UserCtx) :
    (noteDispatch ctx u).lastResult = ctx.lastResult := rfl

@[simp] theorem pushTrace_iterationCount (ctx : ExecCtx) (t : StepTrace) :
    (pushTrace ctx t).iterationCount = ctx.iterationCount := rfl
@[simp] theorem pushTrace_maxIterations (ctx : ExecCtx) (t : StepTrace) :
    (pushTrace ctx t).maxIterations = ctx.maxIterations := rfl
@[simp] theorem pushTrace_workflowSteps (ctx : ExecCtx) (t : StepTrace) :
    (pushTrace ctx t).workflowSteps = ctx.workflowSteps ++ [t] := rfl
@[simp] theorem pushTrace_allResults (ctx : ExecCtx) (t : StepTrace) :
    (pushTrace ctx t).allResults = ctx.allResults := rfl
@[simp] theorem pushTrace_errors (ctx : ExecCtx) (t : StepTrace) :
    (pushTrace ctx t).errors = ctx.errors := rfl
@[simp] theorem pushTrace_tokensUsed (ctx : ExecCtx) (t : StepTrace) :
    (pushTrace ctx t).tokensUsed = ctx.tokensUsed := rfl
@[simp] theorem pushTrace_dispatchCount (ctx : ExecCtx) (t : StepTrace) :
    (pushTrace ctx t).dispatchCount = ctx.dispatchCount := rfl
@[simp] theorem pushTrace_visitedNodes (ctx : ExecCtx) (t : StepTrace) :
    (pushTrace ctx t).visitedNodes = ctx.visitedNodes := rfl
@[simp] theorem pushTrace_lastResult (ctx : ExecCtx) (t : StepTrace) :
    (pushTrace ctx t).lastResult = ctx.lastResult := rfl

@[simp] theorem recordResult_iterationCount (ctx : ExecCtx) (r : StepResult) :
    (recordResult ctx r).iterationCount = ctx.iterationCount := by
  unfold recordResult; cases dataResponse r <;> rfl
@[simp] theorem recordResult_maxIterations (ctx : ExecCtx) (r : StepResult) :
    (recordResult ctx r).maxIterations = ctx.maxIterations := by
  unfold recordResult; cases dataResponse r <;> rfl
@[simp] theorem recordResult_workflowSteps (ctx : ExecCtx) (r : StepResult) :
    (recordResult ctx r).workflowSteps = ctx.workflowSteps := by
  unfold recordResult; cases dataResponse r <;> rfl
@[simp] theorem recordResult_allResults (ctx : ExecCtx) (r : StepResult) :
    (recordResult ctx r).allResults = ctx.allResults ++ [r] := by
  unfold recordResult; cases dataResponse r <;> rfl
@[simp] theorem recordResult_errors (ctx : ExecCtx) (r : StepResult) :
    (recordResult ctx r).errors = ctx.errors := by
  unfold recordResult; cases dataResponse r <;> rfl
@[simp] theorem recordResult_tokensUsed (ctx : ExecCtx) (r : StepResult) :
    (recordResult ctx r).tokensUsed = ctx.tokensUsed + jsOrNat r.tokensUsed 0 := by
  unfold recordResult; cases dataResponse r <;> rfl
@[simp] theorem recordResult_dispatchCount (ctx : ExecCtx) (r : StepResult) :
    (recordResult ctx r).dispatchCount = ctx.dispatchCount := by
  unfold recordResult; cases dataResponse r <;> rfl
@[simp] theorem recordResult_visitedNodes (ctx : ExecCtx) (r : StepResult) :
    (recordResult ctx r).visitedNodes = ctx.visitedNodes := by
  unfold recordResult; cases dataResponse r <;> rfl
@[simp] theorem recordResult_lastResult (ctx : ExecCtx) (r : StepResult) :
    (recordResult ctx r).lastResult = some r := by
  unfold recordResult; cases dataResponse r <;> rfl

@[simp] theorem mkTrace_node (node : Node) (r : StepResult) :
    (mkTrace node r).node = node.id := rfl
@[simp] theorem mkTrace_hasError (node : Node) (r : StepResult) :
    (mkTrace node r).hasError = strTruthy r.error := rfl
@[simp] theorem mkTrace_tokensUsed (node : Node) (r : StepResult) :
    (mkTrace node r).tokensUsed = r.tokensUsed := rfl

/-- The context of a loop-iteration outcome. -/
def outCtx : StepOut → ExecCtx
  | .halt c => c
  | .next _ c => c

/-- The possible context transformations of one loop iteration: no change
(terminal or absent node), a guard trip (iteration bump plus a recorded
error), a dispatch that threw, a dispatch that returned an error result,
or a successful dispatch.  The side conditions record that every dispatch
happens only below the iteration ceiling and with at most three prior
visits of the dispatched node. -/
inductive Trans : ExecCtx → ExecCtx → Prop where
  | same (ctx : ExecCtx) : Trans ctx ctx
  | guard (ctx : ExecCtx) (msg : String) :
      Trans ctx (pushErr (bumpIter ctx) msg)
  | thrownStep (ctx : ExecCtx) (u : UserCtx) (msg : String)
      (hi : ctx.iterationCount + 1 ≤ ctx.maxIterations) :
      Trans ctx (pushErr (noteDispatch (bumpIter ctx) u) msg)
  | errStep (ctx : ExecCtx) (u : UserCtx) (node : Node) (r : StepResult) (msg : String)
      (hi : ctx.iterationCount + 1 ≤ ctx.maxIterations)
      (hv : ((ctx.workflowSteps.filter (fun s => s.node == node.id)).length ≤ 3))
      (he : strTruthy r.error = true) :
      Trans ctx (pushErr (pushTrace (noteDispatch (bumpIter ctx) u) (mkTrace node r)) msg)
  | okStep (ctx : ExecCtx) (u : UserCtx) (node : Node) (r : StepResult)
      (hi : ctx.iterationCount + 1 ≤ ctx.maxIterations)
      (hv : ((ctx.workflowSteps.filter (fun s => s.node == node.id)).length ≤ 3))
      (he : strTruthy r.error = false) :
      Trans ctx (recordResult (pushTrace (noteDispatch (bumpIter ctx) u) (mkTrace node r)) r)

/-- Every iteration of the loop performs one of the `Trans` context
transformations. -/
theorem loopStep_trans (g : Graph) (o : Oracle) (cur : Option Node) (ctx : ExecCtx) :
    Trans ctx (outCtx (loopStep g o cur ctx)) := by
  match cur with
  | none => exact Trans.same ctx
  | some node =>
    simp only [loopStep]
    split
    · exact Trans.same ctx
    · split
      · exact Trans.guard ctx _
      · next hmax =>
        split
        · exact Trans.guard ctx _
        · next hvis =>
          have hi : ctx.iterationCount + 1 ≤ ctx.maxIterations := Nat.le_of_not_lt hmax
          have hv : (ctx.workflowSteps.filter (fun s => s.node == node.id)).length ≤ 3 :=
            Nat.le_of_not_lt hvis
          cases ho : o node (bumpIter ctx) with
          | thrown msg u =>
            exact Trans.thrownStep ctx u _ hi
          | ok r u =>
            by_cases herr : strTruthy r.error
            · simp only [outCtx, herr, if_true]
              exact Trans.errStep ctx u node r _ hi hv herr
            · simp only [outCtx, herr, if_false]
              exact Trans.okStep ctx u node r hi hv (by simpa using herr)

/-- A predicate preserved by every `Trans` transformation is an invariant
of the run-driver loop. -/
theorem runLoop_inv {P : ExecCtx → Prop} (hP : ∀ a b, Trans a b → P a → P b)
    (g : Graph) (o : Oracle) :
    ∀ (f : Nat) (cur : Option Node) (ctx : ExecCtx), P ctx → P (runLoop g o f cur ctx) := by
  intro f
  induction f with
  | zero => intro cur ctx h; simpa [runLoop] using h
  | succ n ih =>
    intro cur ctx h
    have ht := loopStep_trans g o cur ctx
    cases hs : loopStep g o cur ctx with
    | halt c =>
      rw [hs] at ht
      simpa [runLoop, hs] using hP _ _ ht h
    | next cur2 c =>
      rw [hs] at ht
      simpa [runLoop, hs] using ih cur2 c (hP _ _ ht h)

/-- A continuing loop iteration increments the iteration count by exactly
one, never changes the ceiling, and only continues while at or below the
ceiling. -/
theorem loopStep_next_iter (g : Graph) (o : Oracle) (cur : Option Node) (ctx : ExecCtx)
    (cur2 : Option Node) (c : ExecCtx) (h : loopStep g o cur ctx = .next cur2 c) :
    c.iterationCount = ctx.iterationCount + 1 ∧ c.maxIterations = ctx.maxIterations ∧
      c.iterationCount ≤ c.maxIterations := by
  match cur with
  | none => simp [loopStep] at h
  | some node =>
    simp only [loopStep] at h
    split at h
    · cases h
    · split at h
      · cases h
      · next hmax =>
        have hi : ctx.iterationCount + 1 ≤ ctx.maxIterations := Nat.le_of_not_lt hmax
        split at h
        · cases h
        · cases ho : o node (bumpIter ctx) with
          | thrown msg u =>
            rw [ho] at h
            cases h
            simp [hi]
          | ok r u =>
            rw [ho] at h
            cases herr : strTruthy r.error <;> simp only [herr] at h <;>
              cases h <;> simp [hi]

/-- Any fuel of at least `maxIterations + 1 - iterationCount` produces the
same final context: the explicit fuel of `runLoop` never truncates a run
started within its ceiling. -/
theorem runLoop_fuel_irrelevant (g : Graph) (o : Oracle) :
    ∀ (f1 f2 : Nat) (cur : Option Node) (ctx : ExecCtx),
      ctx.iterationCount ≤ ctx.maxIterations →
      ctx.maxIterations + 1 ≤ f1 + ctx.iterationCount →
      ctx.maxIterations + 1 ≤ f2 + ctx.iterationCount →
      runLoop g o f1 cur ctx = runLoop g o f2 cur ctx := by
  intro f1
  induction f1 with
  | zero => intro f2 cur ctx h0 h1 h2; omega
  | succ n ih =>
    intro f2 cur ctx h0 h1 h2
    cases f2 with
    | zero => omega
    | succ m =>
      cases hs : loopStep g o cur ctx with
      | halt c => simp [runLoop, hs]
      | next cur2 c =>
        have hiter := loopStep_next_iter g o cur ctx cur2 c hs
        simp only [runLoop, hs]
        exact ih m cur2 c hiter.2.2 (by omega) (by omega)

/-- Run invariant: the ghost dispatch counter never exceeds the iteration
ceiling, which stays at its default of 100. -/
theorem execute_dispatchCount_le (g : Graph) (o : Oracle) (u : UserCtx) :
    (execute g o u).dispatchCount ≤ 100 := by
  have h := runLoop_inv
    (P := fun ctx => ctx.dispatchCount ≤ ctx.maxIterations ∧
      ctx.dispatchCount ≤ ctx.iterationCount ∧ ctx.maxIterations = 100)
    (fun a b tr ha => by cases tr <;> simp_all <;> omega)
    g o 101 (lookup g "start") { user := u } (by simp)
  have h1 := h.1
  rw [h.2.2] at h1
  simpa [execute] using h1

/-- Run invariant: `allResults` holds exactly the results of the
dispatches that returned without an error (the traces with
`hasError = false`), and the trace list counts every returned dispatch,
itself bounded by the ghost dispatch counter. -/
theorem execute_allResults_accounting (g : Graph) (o : Oracle) (u : UserCtx) :
    (execute g o u).allResults.length =
        ((execute g o u).workflowSteps.filter (fun s => !s.hasError)).length ∧
      (execute g o u).workflowSteps.length ≤ (execute g o u).dispatchCount := by
  have h := runLoop_inv
    (P := fun ctx => ctx.allResults.length =
        (ctx.workflowSteps.filter (fun s => !s.hasError)).length ∧
      ctx.workflowSteps.length ≤ ctx.dispatchCount)
    (fun a b tr ha => by
      cases tr <;> simp_all [List.filter_append] <;> omega)
    g o 101 (lookup g "start") { user := u } (by simp)
  simpa [execute] using h

/-- Run invariant: the accumulated token counter is the sum of the
per-step token counts of the non-error results only. -/
theorem execute_tokens_sum (g : Graph) (o : Oracle) (u : UserCtx) :
    (execute g o u).tokensUsed =
      ((execute g o u).allResults.map (fun r => jsOrNat r.tokensUsed 0)).sum := by
  have h := runLoop_inv
    (P := fun ctx => ctx.tokensUsed =
      (ctx.allResults.map (fun r => jsOrNat r.tokensUsed 0)).sum)
    (fun a b tr ha => by cases tr <;> simp_all)
    g o 101 (lookup g "start") { user := u } (by simp)
  simpa [execute] using h

/-- Run invariant: no node id is dispatched-and-recorded more than four
times, because the repeated-visit guard blocks any dispatch after three
recorded visits. -/
theorem execute_visit_bound (g : Graph) (o : Oracle) (u : UserCtx) (i : String) :
    ((execute g o u).workflowSteps.filter (fun s => s.node == i)).length ≤ 4 := by
  have h := runLoop_inv
    (P := fun ctx => ∀ j : String,
      ((ctx.workflowSteps.filter (fun s => s.node == j)).length ≤ 4))
    (fun a b tr ha => by
      cases tr with
      | same => exact ha
      | guard msg => simpa using ha
      | thrownStep u2 msg hi => simpa using ha
      | errStep u2 node r msg hi hv he =>
        intro j
        by_cases hn : node.id = j
        · subst hn
          simpa [List.filter_append] using Nat.add_le_add_right hv 1
        · have hb : ((node.id == j) : Bool) = false := by simp [hn]
          simpa [List.filter_append, hb] using ha j
      | okStep u2 node r hi hv he =>
        intro j
        by_cases hn : node.id = j
        · subst hn
          simpa [List.filter_append] using Nat.add_le_add_right hv 1
        · have hb : ((node.id == j) : Bool) = false := by simp [hn]
          simpa [List.filter_append, hb] using ha j)
    g o 101 (lookup g "start") { user := u } (by simp)
  simpa [execute] using h i

/-- Run invariant: `visitedNodes` is created empty and no part of the
engine ever adds to it, so the escalated-already check of the fault
routing can never fire. -/
theorem execute_visitedNodes_nil (g : Graph) (o : Oracle) (u : UserCtx) :
    (execute g o u).visitedNodes = [] := by
  have h := runLoop_inv
    (P := fun ctx => ctx.visitedNodes = [])
    (fun a b tr ha => by cases tr <;> simp_all)
    g o 101 (lookup g "start") { user := u } (by simp)
  simpa [execute] using h

end WorkflowEngine

/-- A truthy optional string is a non-empty string. -/
theorem strTruthy_getD_ne {o : Option String} (h : strTruthy o = true) : o.getD "" ≠ "" := by
  cases o with
  | none => simp [strTruthy] at h
  | some s => simpa [strTruthy] using h

/-- The backward response scan only ever returns a truthy (non-empty)
string. -/
theorem scanResponses_ne_empty (chain : RData → Option String) :
    ∀ (l : List StepResult) (r : String),
      WorkflowEngine.scanResponses chain l = some r → r ≠ "" := by
  intro l
  induction l with
  | nil => intro r h; simp [WorkflowEngine.scanResponses] at h
  | cons x rest ih =>
    intro r h
    simp only [WorkflowEngine.scanResponses] at h
    cases hx : x.data with
    | none => simp only [hx] at h; exact ih r h
    | some d =>
      simp only [hx] at h
      by_cases ht : strTruthy (chain d) = true
      · rw [if_pos ht] at h
        rw [h] at ht
        simpa [strTruthy] using ht
      · rw [if_neg ht] at h
        exact ih r h

/-- Every branch of the caller-side response extraction produces a
non-empty string. -/
theorem extractResponse_ne_empty (result : ExecCtx) : extractResponse result ≠ "" := by
  unfold extractResponse
  dsimp only
  by_cases h1 : strTruthy ((result.lastResult.bind fun x => x.data).bind fun x => x.finalResponse) = true
  · rw [if_pos h1]
    exact strTruthy_getD_ne h1
  · rw [if_neg h1]
    cases hscan : WorkflowEngine.scanResponses WorkflowEngine.respChainX result.allResults.reverse with
    | some r =>
      simp only [hscan]
      exact scanResponses_ne_empty _ _ r hscan
    | none =>
      simp only [hscan]
      by_cases h4 : strTruthy (jsOr (jsOr ((result.lastResult.bind fun x => x.data).bind fun x => x.optimized) ((result.lastResult.bind fun x => x.data).bind fun x => x.response)) ((result.lastResult.bind fun x => x.data).bind fun x => x.formatted)) = true
      · rw [if_pos h4]
        exact strTruthy_getD_ne h4
      · rw [if_neg h4]
        cases herr : result.errors with
        | cons e rest =>
          simp only [herr]
          intro h
          have hl := congrArg String.length h
          simp [String.length_append] at hl
          exact absurd hl.2 (by decide)
        | nil =>
          simp only [herr]
          decide

section Claims

open WorkflowEngine

/-- Fault graph for C1: the start node and the terminal response node are
vision nodes dispatched without a media URL, so every dispatch of them
produces an error result (`Missing image URL`), exactly the repeated-fault
situation of the claim. -/
def escGraph : Graph := [
  { id := "start", name := "Start", type := "vision" },
  { id := "agent_escalation", name := "Agent Escalation", type := "escalation" },
  { id := "response_sender", name := "Response Sender", type := "vision" },
  { id := "end", name := "End", type := "end" } ]

/-- Straight-line graph for C2: the trigger node routes directly to the
terminal node; no dispatched node ever writes a response field. -/
def lineGraph : Graph := [
  { id := "start", name := "Start", type := "trigger", config := { next := some "end" } },
  { id := "end", name := "End", type := "end" } ]

/-- One-node graph for C3: the single dispatch produces an error result
and the graph has no escalation node, so the run ends at once. -/
def visGraph : Graph := [ { id := "start", name := "Start", type := "vision" } ]

/-- Graph for C4, shaped like the real workflow around its NLP step: the
start node is the NLP node, statically routed to an intent router whose
table and fallback both lead to a clarification handler; the escalation
and terminal response nodes exist as in the real workflow. -/
def nlpGraph : Graph := [
  { id := "start", name := "NLP Processor", type := "nlp",
    config := { next := some "intent_router" } },
  { id := "intent_router", name := "Intent Router", type := "router",
    config := { routes := some [ { intent := some "general_question", next := some "clarification" } ],
                fallback := some "clarification" } },
  { id := "clarification", name := "Clarification", type := "handler" },
  { id := "agent_escalation", name := "Agent Escalation", type := "escalation" },
  { id := "response_sender", name := "Response Sender", type := "action" },
  { id := "end", name := "End", type := "end" } ]

/-- The NLP node of `nlpGraph`. -/
def nlpStartNode : Node :=
  { id := "start", name := "NLP Processor", type := "nlp",
    config := { next := some "intent_router" } }

/-- Adapters for C4: the language-understanding call throws. -/
def nlpFailAdapters : Adapters := { nlp := .error "boom" }

/-- Two-node cycle with no exit edge, for C5. -/
def cycleGraph : Graph := [
  { id := "start", name := "A", type := "noop", config := { next := some "b" } },
  { id := "b", name := "B", type := "noop", config := { next := some "start" } } ]

/-- One vision node for C9, dispatched with a media URL. -/
def visErrGraph : Graph := [ { id := "start", name := "Vision", type := "vision" } ]

/-- Adapters for C9: the vision adapter returns an unsuccessful analysis
that nevertheless consumed 50 tokens. -/
def visFailAdapters : Adapters :=
  { vision := .ok { success := false, error := some "bad image", tokensUsed := some 50 } }

/-- C1: the claim says the Run Driver routes a faulting run to the
escalation node at most once and every later fault directly to the
terminal response node.  The code checks `visitedNodes` for
`agent_escalation`, but nothing ever adds to `visitedNodes`
(`execute_visitedNodes_nil`), so the check never fires: in this run the
first fault routes to `agent_escalation`, and each of the four later
faults routes to `agent_escalation` again (it is dispatched four times),
until the repeated-visit guard finally breaks the ping-pong.  This
contradicts the source's own comments (`only if we haven't been there
already`, `Already escalated, going to response sender`), whose else
branch is dead code. -/
theorem c1_second_fault_reenters_escalation :
    ((execute escGraph (executeNodeO {}) {}).workflowSteps.map (fun s => s.node)) =
      ["start", "agent_escalation", "response_sender", "agent_escalation", "response_sender",
       "agent_escalation", "response_sender", "agent_escalation", "response_sender"] ∧
    ((execute escGraph (executeNodeO {}) {}).workflowSteps.filter
        (fun s => s.node == "agent_escalation")).length = 4 ∧
    (execute escGraph (executeNodeO {}) {}).visitedNodes = [] := by
  refine ⟨by rfl, by rfl, by rfl⟩

/-- C2 (counterexample): as stated the claim fails — `execute` itself can
return with an empty `finalResponse`.  In this run the only dispatched
node is the trigger, whose payload has no response field, so the returned
context's `finalResponse` is still null. -/
theorem c2_counterexample :
    (execute lineGraph (executeNodeO {}) { user_message := some "hi" }).finalResponse
      = none := by rfl

/-- C2 (amended): `execute` always returns after at most the iteration
ceiling (100) of dispatches, and the caller-side response extraction of
the test-chat route always produces a non-empty response string — but the
non-emptiness guarantee lives in the route's extractor, not in the
`finalResponse` field of the result `execute` returns. -/
theorem c2_bounded_and_extraction_nonempty (g : Graph) (o : Oracle) (u : UserCtx) :
    (execute g o u).dispatchCount ≤ 100 ∧ extractResponse (execute g o u) ≠ "" :=
  ⟨execute_dispatchCount_le g o u, extractResponse_ne_empty (execute g o u)⟩

/-- C3 (counterexample): as stated the claim fails — a dispatch whose
Step Result carries an error is recorded in the step trace but not in
`allResults`.  Here one dispatch executes (the trace and the ghost counter
both have length 1) while `allResults` stays empty, so `allResults` is
shorter than the claim allows on both counts. -/
theorem c3_counterexample :
    ¬ ((execute visGraph (executeNodeO {}) {}).allResults.length =
          (execute visGraph (executeNodeO {}) {}).dispatchCount ∧
       (execute visGraph (executeNodeO {}) {}).workflowSteps.length ≤
          (execute visGraph (executeNodeO {}) {}).allResults.length) := by
  decide

/-- C3 (amended): at the end of every run, `allResults` holds exactly the
dispatches that returned without an error (the error-free trace entries),
so it is never longer — rather than never shorter — than the step-trace
list, which itself counts at most the dispatches executed. -/
theorem c3_allResults_accounting (g : Graph) (o : Oracle) (u : UserCtx) :
    (execute g o u).allResults.length =
        ((execute g o u).workflowSteps.filter (fun s => !s.hasError)).length ∧
      (execute g o u).allResults.length ≤ (execute g o u).workflowSteps.length ∧
      (execute g o u).workflowSteps.length ≤ (execute g o u).dispatchCount := by
  obtain ⟨h1, h2⟩ := execute_allResults_accounting g o u
  exact ⟨h1, h1 ▸ List.length_filter_le _ _, h2⟩

/-- C5 (counterexample): in the two-node exit-free cycle the run performs
8 dispatches before the repeated-visit guard trips, exceeding the claimed
`threshold × cycle-length = 3 × 2` bound. -/
theorem c5_counterexample :
    ((execute cycleGraph (executeNodeO {}) {}).workflowSteps.map (fun s => s.node) =
      ["start", "b", "start", "b", "start", "b", "start", "b"]) ∧
    ¬ ((execute cycleGraph (executeNodeO {}) {}).dispatchCount ≤ 3 * 2) := by
  exact ⟨by rfl, by decide⟩

/-- C5 (amended): the repeated-visit detector counts the current node's
prior dispatches from the step-trace list and blocks any dispatch once the
count exceeds 3, so every node is dispatched at most `threshold + 1 = 4`
times; an exit-free cycle therefore terminates within
`(threshold + 1) × cycle-length` dispatches — the two-node cycle takes
exactly `(3 + 1) × 2 = 8`, not `3 × 2`. -/
theorem c5_visit_guard_bound :
    (∀ (g : Graph) (o : Oracle) (u : UserCtx) (i : String),
        ((execute g o u).workflowSteps.filter (fun s => s.node == i)).length ≤ 4) ∧
    (execute cycleGraph (executeNodeO {}) {}).dispatchCount = (3 + 1) * 2 := by
  exact ⟨fun g o u i => execute_visit_bound g o u i, by rfl⟩

/-- C9 (counterexample): as stated the claim fails — the per-step token
counts of error results are not accumulated.  Here the single dispatch is
an error result that consumed 50 tokens (recorded in its step trace), yet
the context's token counter ends at 0. -/
theorem c9_counterexample :
    ¬ ((execute visErrGraph (executeNodeO visFailAdapters) { media_url := some "http" }).tokensUsed =
        (((execute visErrGraph (executeNodeO visFailAdapters) { media_url := some "http" }).workflowSteps.map
            (fun s => jsOrNat s.tokensUsed 0)).sum)) := by
  decide

/-- C9 (amended): at the end of every run the accumulated `tokensUsed`
equals the sum of the per-step `tokensUsed` of the Step Results that
carried no error (`allResults`); tokens reported by error results are
dropped, never accumulated. -/
theorem c9_tokens_sum_over_ok_results (g : Graph) (o : Oracle) (u : UserCtx) :
    (execute g o u).tokensUsed =
      ((execute g o u).allResults.map (fun r => jsOrNat r.tokensUsed 0)).sum :=
  execute_tokens_sum g o u

/-- C4 (counterexample): as stated the claim fails — when the NLP adapter
throws, the run does not continue to a router node.  In this run (built
like the real workflow: NLP statically routed to an intent router) the
failing NLP dispatch is followed by the escalation node and the terminal
response node; the router is never dispatched at all. -/
theorem c4_counterexample :
    ((execute nlpGraph (executeNodeO nlpFailAdapters)
        { user_message := some "hello" }).workflowSteps.map (fun s => s.node)) =
      ["start", "agent_escalation", "response_sender"] ∧
    (execute nlpGraph (executeNodeO nlpFailAdapters)
        { user_message := some "hello" }).errors =
      ["Error in node start (NLP Processor): boom"] := by
  exact ⟨by rfl, by rfl⟩

/-- C4 (amended): when the language-understanding adapter fails, the NLP
handler does return the degraded result (`intent = general_question`,
`confidence = 0.3`, `error` set) and the run does not abort — but because
the Step Result carries `error`, the Run Driver routes the run to the
escalation node and discards the degraded payload (`lastResult` and
`allResults` are unchanged), so no router node ever routes on
`intent = general_question`. -/
theorem c4_nlp_failure_routes_to_escalation
    (g : Graph) (a : Adapters) (node : Node) (ctx : ExecCtx) (e : String)
    (hnlp : a.nlp = .error e) (he : e ≠ "") (ht : node.type = "nlp")
    (hm : strTruthy ctx.user.user_message = true)
    (hi : ctx.iterationCount < ctx.maxIterations)
    (hv : (ctx.workflowSteps.filter (fun s => s.node == node.id)).length ≤ 3)
    (hvn : ctx.visitedNodes = []) :
    (handleNLP a.nlp node (bumpIter ctx)).error = some e ∧
    (handleNLP a.nlp node (bumpIter ctx)).data =
      some { intent := some "general_question", entities := some [],
             confidence := some (3/10), requires_product_search := some false,
             requires_agent_escalation := some false } ∧
    ∃ c : ExecCtx,
      loopStep g (executeNodeO a) (some node) ctx = .next (lookup g "agent_escalation") c ∧
      c.lastResult = ctx.lastResult ∧ c.allResults = ctx.allResults ∧
      c.errors = ctx.errors ++
        ["Error in node " ++ node.id ++ " (" ++ node.name ++ "): " ++ e] := by
  have hmsg : jsOr ctx.user.user_message
      (((bumpIter ctx).lastResult.bind (fun x => x.data)).bind (fun x => x.message)) =
      ctx.user.user_message := by
    unfold jsOr; rw [hm]; rfl
  have hNLP : handleNLP a.nlp node (bumpIter ctx) =
      { data := some { intent := some "general_question", entities := some [],
                       confidence := some (3/10), requires_product_search := some false,
                       requires_agent_escalation := some false },
        tokensUsed := some 0, confidence := some (3/10), error := some e } := by
    unfold handleNLP
    rw [hnlp]
    simp only [bumpIter_user, bumpIter_lastResult] at hmsg ⊢
    rw [hmsg, hm]
    rfl
  refine ⟨by rw [hNLP], by rw [hNLP], ?_⟩
  have hne : ¬ (node.type = "end") := by rw [ht]; decide
  have g1 : ¬ ((bumpIter ctx).maxIterations < (bumpIter ctx).iterationCount) := by
    simp only [bumpIter_maxIterations, bumpIter_iterationCount]; omega
  have g2 : ¬ (3 < (((bumpIter ctx).workflowSteps.filter (fun s => s.node == node.id)).length)) := by
    simp only [bumpIter_workflowSteps]; omega
  have horacle : executeNodeO a node (bumpIter ctx) =
      .ok (handleNLP a.nlp node (bumpIter ctx)) (bumpIter ctx).user := by
    unfold executeNodeO; rw [ht]; rfl
  have herr : strTruthy (handleNLP a.nlp node (bumpIter ctx)).error = true := by
    rw [hNLP]; simpa [strTruthy] using he
  have hmsgerr : (handleNLP a.nlp node (bumpIter ctx)).error.getD "" = e := by
    rw [hNLP]; rfl
  have hstep : loopStep g (executeNodeO a) (some node) ctx =
      .next (faultTarget g (pushErr (pushTrace (noteDispatch (bumpIter ctx) (bumpIter ctx).user)
          (mkTrace node (handleNLP a.nlp node (bumpIter ctx))))
          ("Error in node " ++ node.id ++ " (" ++ node.name ++ "): " ++ e)))
        (pushErr (pushTrace (noteDispatch (bumpIter ctx) (bumpIter ctx).user)
          (mkTrace node (handleNLP a.nlp node (bumpIter ctx))))
          ("Error in node " ++ node.id ++ " (" ++ node.name ++ "): " ++ e)) := by
    unfold loopStep
    dsimp only
    rw [if_neg hne, if_neg g1, if_neg g2, horacle]
    dsimp only
    rw [if_pos herr]
    rw [hmsgerr]
  have hft : faultTarget g (pushErr (pushTrace (noteDispatch (bumpIter ctx) (bumpIter ctx).user)
      (mkTrace node (handleNLP a.nlp node (bumpIter ctx))))
      ("Error in node " ++ node.id ++ " (" ++ node.name ++ "): " ++ e)) =
      lookup g "agent_escalation" := by
    unfold faultTarget
    have hnil : (pushErr (pushTrace (noteDispatch (bumpIter ctx) (bumpIter ctx).user)
        (mkTrace node (handleNLP a.nlp node (bumpIter ctx))))
        ("Error in node " ++ node.id ++ " (" ++ node.name ++ "): " ++ e)).visitedNodes = [] := by
      simp [hvn]
    rw [hnil]
    rfl
  rw [hft] at hstep
  exact ⟨_, hstep, by simp, by simp, by simp⟩

/-- Witness for C4 at concrete inputs: with the adapter throwing `boom`,
the loop iteration at the NLP node of `nlpGraph` hands control to the
escalation node, records the error, and discards the degraded result. -/
theorem c4_witness :
    ∃ c : ExecCtx,
      loopStep nlpGraph (executeNodeO nlpFailAdapters) (some nlpStartNode)
          { user := { user_message := some "hello" } } =
        .next (lookup nlpGraph "agent_escalation") c ∧
      c.lastResult = none ∧ c.allResults = [] ∧
      c.errors = ["Error in node start (NLP Processor): boom"] :=
  (c4_nlp_failure_routes_to_escalation nlpGraph nlpFailAdapters nlpStartNode
    { user := { user_message := some "hello" } } "boom" rfl (by decide) rfl (by decide)
    (by decide) (by decide) rfl).2.2

/-- C6: the Next-Node Resolver evaluates its priorities in order — a Step
Result's explicit `next` whose target exists always wins regardless of any
confidence routing the node's config defines, and with confidence exactly
0.7 the high-confidence branch is chosen (the boundary comparison is
`>= 0.7`, inclusive on the high side). -/
theorem c6_routing_priority :
    (∀ (g : Graph) (node : Node) (r : StepResult) (t : String) (n : Node),
        r.next = some t → t ≠ "" → lookup g t = some n →
        getNextNode g node r = some n) ∧
    (∀ (g : Graph) (node : Node) (r : StepResult) (hc : String) (nh : Node),
        r.next = none → node.config.next = none →
        r.confidence = some (7/10) →
        node.config.next_high_confidence = some hc → hc ≠ "" →
        lookup g hc = some nh →
        getNextNode g node r = some nh) := by
  constructor
  · intro g node r t n h1 h2 h3
    have e1 : refTarget g r.next = some n := by
      rw [h1]; simp [refTarget, h2, h3]
    unfold getNextNode
    rw [e1]
    rfl
  · intro g node r hc nh h1 h2 h3 h4 h5 h6
    have e1 : refTarget g r.next = none := by rw [h1]; rfl
    have e2 : refTarget g node.config.next = none := by rw [h2]; rfl
    have e3 : confGE r.confidence (7/10) = true := by
      rw [h3]; simp [confGE]
    have e4 : refTarget g node.config.next_high_confidence = some nh := by
      rw [h4]; simp [refTarget, h5, h6]
    unfold getNextNode
    rw [e1, e2, e3, e4]
    rfl

/-- Graph for the C6 witness: explicit target, high and low confidence
targets, and a terminal node. -/
def g6 : Graph := [
  { id := "t", name := "T", type := "x" },
  { id := "hi", name := "Hi", type := "x" },
  { id := "lo", name := "Lo", type := "x" },
  { id := "end", name := "End", type := "end" } ]

/-- Node for the C6 witness, configured with both confidence branches. -/
def node6 : Node :=
  { id := "n", name := "N", type := "x",
    config := { next_high_confidence := some "hi", next_low_confidence := some "lo" } }

/-- Witness for C6 at concrete inputs: the explicit `next` wins over the
configured confidence routing, and confidence exactly 0.7 takes the
high-confidence branch. -/
theorem c6_witness :
    getNextNode g6 node6 { next := some "t", confidence := some (9/10) } =
        some { id := "t", name := "T", type := "x" } ∧
    getNextNode g6 node6 { confidence := some (7/10) } =
        some { id := "hi", name := "Hi", type := "x" } :=
  ⟨c6_routing_priority.1 g6 node6 _ "t" _ rfl (by decide) (by rfl),
   c6_routing_priority.2 g6 node6 _ "hi" _ rfl rfl rfl rfl (by decide) (by rfl)⟩

/-- C7: every routing reference that does not resolve to a real node is
skipped without error and the priority chain continues; in particular a
node whose only routing field is a `next` pointing at a nonexistent id
falls through every priority to the terminal node, and the run ends
without raising. -/
theorem c7_unresolvable_refs_fall_through
    (g : Graph) (node : Node) (r : StepResult)
    (h1 : refTarget g r.next = none)
    (h2 : refTarget g node.config.next = none)
    (h3 : node.config.next_high_confidence = none)
    (h4 : node.config.next_low_confidence = none)
    (h5 : node.config.next_found = none)
    (h6 : node.config.next_not_found = none)
    (h7 : node.config.fallback = none) :
    getNextNode g node r = lookup g "end" := by
  unfold getNextNode
  rw [h1, h2, h3, h4, h5, h6, h7]
  simp [refTarget]

/-- Graph for the C7 witness: the start node's only routing field is a
`next` pointing at the nonexistent id `ghost`. -/
def g7 : Graph := [
  { id := "start", name := "S", type := "x", config := { next := some "ghost" } },
  { id := "end", name := "End", type := "end" } ]

/-- The misconfigured node of `g7`. -/
def node7 : Node :=
  { id := "start", name := "S", type := "x", config := { next := some "ghost" } }

/-- Witness for C7 at a concrete input: the unresolvable `next` reference
falls through to the terminal node. -/
theorem c7_witness :
    getNextNode g7 node7 {} = some { id := "end", name := "End", type := "end" } := by
  have h := c7_unresolvable_refs_fall_through g7 node7 {}
    (by rfl) (by rfl) rfl rfl rfl rfl rfl
  rw [h]
  rfl

/-- C8: for a non-empty candidate list, a ranking-adapter failure (a throw
or an unparseable payload, both of which surface as the caught exception
of the ranker branch) still returns a result: the candidates in their
incoming stored-popularity order truncated to the configured top-n, with
confidence exactly 0.5, a diagnostic reasoning string, and no error on the
Step Result.  The order/prefix conjuncts state that the fallback preserves
the stored order of the candidates. -/
theorem c8_ranker_adapter_failure_fallback
    (rec : RecommendOutcome) (node : Node) (ctx : ExecCtx) (ps : List Product) (e : String)
    (hid : node.id = "bike_ranker" ∨ node.id = "product_ranker")
    (hps : ((ctx.lastResult.bind (fun r => r.data)).bind (fun d => d.products)).getD [] = ps)
    (hne : ps ≠ []) :
    handleML (.error e) rec node ctx =
      { data := some { products := some (ps.take (jsOrNat node.config.top_n 5)),
                       reasoning := some "Fallback ranking by popularity" },
        tokensUsed := some 0, confidence := some (1/2) } ∧
    (handleML (.error e) rec node ctx).error = none ∧
    (∀ rel : Product → Product → Prop, ps.Pairwise rel →
      (ps.take (jsOrNat node.config.top_n 5)).Pairwise rel) ∧
    (ps.take (jsOrNat node.config.top_n 5)) <+: ps := by
  have hmain : handleML (.error e) rec node ctx =
      { data := some { products := some (ps.take (jsOrNat node.config.top_n 5)),
                       reasoning := some "Fallback ranking by popularity" },
        tokensUsed := some 0, confidence := some (1/2) } := by
    unfold handleML
    have hlen : ¬ (ps.length = 0) := by
      simpa [List.length_eq_zero] using hne
    rcases hid with h | h <;>
      rw [h] <;> simp only [hps] <;> simp [hlen]
  refine ⟨hmain, by rw [hmain], ?_, List.take_prefix _ _⟩
  intro rel hp
  exact hp.sublist (List.take_sublist _ _)

/-- Products for the C8 witness, in stored popularity order. -/
def prodA : Product := { id := 1, name := "A", popularity := 9 }

/-- Second product for the C8 witness. -/
def prodB : Product := { id := 2, name := "B", popularity := 4 }

/-- Ranker node for the C8 witness, with `top_n = 1`. -/
def node8 : Node :=
  { id := "bike_ranker", name := "Product Ranker", type := "ml",
    config := { top_n := some 1 } }

/-- Context for the C8 witness: the previous step found two products. -/
def ctx8 : ExecCtx :=
  { lastResult := some { data := some { products := some [prodA, prodB] } } }

/-- Witness for C8 at a concrete input: with `top_n = 1` the fallback
returns the most popular candidate with confidence 0.5. -/
theorem c8_witness :
    handleML (.error "bad json") {} node8 ctx8 =
      { data := some { products := some [prodA],
                       reasoning := some "Fallback ranking by popularity" },
        tokensUsed := some 0, confidence := some (1/2) } :=
  (c8_ranker_adapter_failure_fallback {} node8 ctx8 [prodA, prodB] "bad json"
    (Or.inl rfl) rfl (by decide)).1

/-- C10: with both confidence branches configured, no other routing
fields, and a Step Result carrying no confidence (and no explicit
override), the resolver takes neither confidence branch — both
`undefined >= 0.7` and `undefined < 0.7` are false — and resolution falls
through to the fallback/terminal priorities, here the terminal lookup. -/
theorem c10_undefined_confidence_skips_both_branches
    (g : Graph) (node : Node) (r : StepResult) (hcid lcid : String)
    (h1 : r.next = none) (h2 : r.confidence = none)
    (h3 : node.config.next = none)
    (_h4 : node.config.next_high_confidence = some hcid)
    (_h5 : node.config.next_low_confidence = some lcid)
    (h6 : node.config.next_found = none)
    (h7 : node.config.next_not_found = none)
    (h8 : node.config.fallback = none) :
    getNextNode g node r = lookup g "end" := by
  have e2 : confGE r.confidence (7/10) = false := by rw [h2]; rfl
  have e3 : confLT r.confidence (7/10) = false := by rw [h2]; rfl
  unfold getNextNode
  rw [h1, h3, h6, h7, h8, e2, e3]
  simp [refTarget]

/-- Graph for the C10 witness: both confidence targets exist, plus the
terminal node. -/
def g10 : Graph := [
  { id := "hi", name := "Hi", type := "x" },
  { id := "lo", name := "Lo", type := "x" },
  { id := "end", name := "End", type := "end" } ]

/-- Node for the C10 witness, configured with only the two confidence
branches. -/
def node10 : Node :=
  { id := "n", name := "N", type := "x",
    config := { next_high_confidence := some "hi", next_low_confidence := some "lo" } }

/-- Witness for C10 at a concrete input: a result with no confidence
resolves to the terminal node, not to either confidence target. -/
theorem c10_witness :
    getNextNode g10 node10 {} = some { id := "end", name := "End", type := "end" } := by
  have h := c10_undefined_confidence_skips_both_branches g10 node10 {} "hi" "lo"
    rfl rfl rfl rfl rfl rfl rfl rfl
  rw [h]
  rfl

end Claims

end PocAI
